import Mathlib

/-!
Verification development for the curavoice-backend appointment subsystem.

Shallow embedding conventions:
* The Supabase store is modelled as an explicit `DB` value (lists of rows plus
  an id counter); every `.eq`/`.in_`/`.neq`/`.or_` query filter becomes a
  boolean predicate over the row lists, translated filter-for-filter from
  `app/services/appointments.py`, `app/services/patients.py` and
  `app/services/availability.py`.
* Calendar dates are `Nat` day numbers counted from 1970-01-01 (a Thursday);
  equality of `date.isoformat()` strings is equality of day numbers.
* Times of day are `Nat` minutes since midnight.  The booking path always
  renders times as `HH:MM:SS` with zero seconds, so equality of the stored
  time strings is equality of the minute values.
* `datetime.now()` is passed in as an explicit `now : Nat` argument.
* Python functions that can raise are modelled with `Option`; the service
  functions' catch-all `except` branches become explicit error results.
-/

namespace CuraVoice

/-- Appointment status; the store's check constraint per the data model:
status ∈ {scheduled, confirmed, cancelled, completed, no_show}. -/
inductive Status where
  | scheduled
  | confirmed
  | cancelled
  | completed
  | no_show
deriving DecidableEq

/-- Rendering of a status as the string stored in the `status` column. -/
def Status.toStr : Status → String
  | .scheduled => "scheduled"
  | .confirmed => "confirmed"
  | .cancelled => "cancelled"
  | .completed => "completed"
  | .no_show => "no_show"

/-- A row of the `patients` table (the columns the services touch). -/
structure Patient where
  id : Nat
  clinic_id : Nat
  phone : String
  name : String
  preferred_language : String
  prefers_whatsapp : Bool
deriving DecidableEq

/-- A row of the `appointments` table (the columns the services touch). -/
structure Appointment where
  id : Nat
  clinic_id : Nat
  doctor_id : Nat
  patient_id : Nat
  appointment_type_id : Option Nat
  /-- day number since 1970-01-01 -/
  date : Nat
  /-- minutes since midnight -/
  time : Nat
  duration_minutes : Nat
  reason : Option String
  status : Status
  created_via : String
  reminder_sent : Bool
  reminder_sent_at : Option Nat
  confirmation_sent : Bool
  cancellation_reason : Option String
  cancelled_at : Option Nat
  rescheduled_at : Option Nat
deriving DecidableEq

/-- A row of the `blocked_times` table.  `start_datetime`/`end_datetime` are
absolute minutes since the 1970-01-01 midnight epoch:
`day * 1440 + minute_of_day`, mirroring ISO timestamps, whose lexicographic
string order agrees with this numeric order. -/
structure BlockedTime where
  clinic_id : Nat
  doctor_id : Option Nat
  start_datetime : Nat
  end_datetime : Nat
deriving DecidableEq

/-- One weekday entry of a doctor's `working_hours` JSON map.
`start`/`stop` model the `"start"`/`"end"` keys (`end` is reserved in Lean);
they are `Option` because the code reads them with
`day_schedule.get("start", "09:00")` / `.get("end", "17:00")`. -/
structure DaySchedule where
  enabled : Bool
  start : Option String
  stop : Option String
deriving DecidableEq

/-- A row of the `doctors` table (the columns the availability service
touches).  Fields read through `dict.get(key, default)` in the code are
`Option` here, with the default applied at the use site. -/
structure Doctor where
  id : Nat
  clinic_id : Nat
  is_active : Option Bool
  working_hours : List (String × DaySchedule)
  slot_duration : Option Nat
  buffer_time : Option Nat
  /-- recurring breaks: `{start, end}` time-of-day string pairs -/
  break_times : List (String × String)
deriving DecidableEq

/-- The shared relational store.  `next_id` models the store generating a
fresh primary key for each inserted row. -/
structure DB where
  appointments : List Appointment
  patients : List Patient
  next_id : Nat
deriving DecidableEq

/-- A fixture appointment used by concrete instantiations below. -/
def apptDefault : Appointment :=
  { id := 0, clinic_id := 0, doctor_id := 0, patient_id := 0,
    appointment_type_id := none, date := 0, time := 0, duration_minutes := 30,
    reason := none, status := .scheduled, created_via := "ai_voice",
    reminder_sent := false, reminder_sent_at := none,
    confirmation_sent := false, cancellation_reason := none,
    cancelled_at := none, rescheduled_at := none }

/-! ## Patients service (`app/services/patients.py`) -/

/-- `create_or_get_by_phone` (patients.py lines 11-75): select the first
patient of the clinic with this phone; if none, insert a new row.  Returns
the updated store and the patient id. -/
def create_or_get_by_phone (db : DB) (clinic_id : Nat) (phone name : String)
    (preferred_language : String) (prefers_whatsapp : Bool) : DB × Nat :=
  match db.patients.find? (fun p => p.clinic_id == clinic_id && p.phone == phone) with
  | some p => (db, p.id)
  | none =>
      let pid := db.next_id
      ({ db with
          patients := db.patients ++
            [{ id := pid, clinic_id := clinic_id, phone := phone, name := name,
               preferred_language := preferred_language,
               prefers_whatsapp := prefers_whatsapp }],
          next_id := db.next_id + 1 }, pid)

/-! ## Appointments service (`app/services/appointments.py`) -/

/-- Result envelope of `book_appointment`. -/
structure BookResult where
  success : Bool
  appointment_id : Option Nat
  message : String
deriving DecidableEq

/-- Result envelope of `cancel_appointment` / `reschedule_appointment`. -/
structure OpResult where
  success : Bool
  message : String
deriving DecidableEq

/-- Mirror of the `AppointmentCreate` schema (models/schemas.py). -/
structure AppointmentCreate where
  clinic_id : Nat
  doctor_id : Nat
  appointment_type_id : Option Nat
  date : Nat
  time : Nat
  duration_minutes : Nat
  reason : Option String
  patient_name : String
  patient_phone : String
  preferred_language : String
  prefers_whatsapp : Bool
deriving DecidableEq

/-- The double-booking point check of `book_appointment` (appointments.py
lines 44-53): any appointment row with this doctor, date and time and status
in {scheduled, confirmed}.  Note the query has no `clinic_id` filter. -/
def slot_taken (appointments : List Appointment) (doctor_id date time : Nat) : Bool :=
  appointments.any (fun a =>
    a.doctor_id == doctor_id && a.date == date && a.time == time &&
    (a.status == Status.scheduled || a.status == Status.confirmed))

/-- The patient-upsert step of `book_appointment` (lines 33-40): the call to
`create_or_get_by_phone` with the booking's clinic, phone and name. -/
def book_upsert (db : DB) (d : AppointmentCreate) : DB × Nat :=
  create_or_get_by_phone db d.clinic_id d.patient_phone d.patient_name
    d.preferred_language d.prefers_whatsapp

/-- The insert step of `book_appointment` (lines 62-81): the inserted record
carries status `scheduled` and `created_via = "ai_voice"`; columns absent
from the insert payload take the store's column defaults. -/
def book_insert_step (db : DB) (d : AppointmentCreate) (patient_id : Nat) : DB × Nat :=
  let aid := db.next_id
  ({ db with
      appointments := db.appointments ++
        [{ id := aid, clinic_id := d.clinic_id, doctor_id := d.doctor_id,
           patient_id := patient_id, appointment_type_id := d.appointment_type_id,
           date := d.date, time := d.time, duration_minutes := d.duration_minutes,
           reason := d.reason, status := .scheduled, created_via := "ai_voice",
           reminder_sent := false, reminder_sent_at := none,
           confirmation_sent := false, cancellation_reason := none,
           cancelled_at := none, rescheduled_at := none }],
      next_id := db.next_id + 1 }, aid)

/-- `book_appointment` (appointments.py lines 19-108), composed of its three
store interactions in the code's order: patient upsert first, then the
double-booking point check, then the insert. -/
def book_appointment (db : DB) (d : AppointmentCreate) : DB × BookResult :=
  let up := book_upsert db d
  if slot_taken up.1.appointments d.doctor_id d.date d.time then
    (up.1, ⟨false, none, "This time slot is already booked"⟩)
  else
    let ins := book_insert_step up.1 d up.2
    (ins.1, ⟨true, some ins.2, "Appointment booked successfully"⟩)

/-- `cancel_appointment` (appointments.py lines 111-184).  The fetch is
filtered by id and clinic_id; the status guard rejects terminal statuses; the
update is filtered by id only (line 160). -/
def cancel_appointment (db : DB) (clinic_id appointment_id : Nat)
    (cancellation_reason : Option String) (now : Nat) : DB × OpResult :=
  match db.appointments.find? (fun a => a.id == appointment_id && a.clinic_id == clinic_id) with
  | none => (db, ⟨false, "Appointment not found"⟩)
  | some appointment =>
      if appointment.status == Status.cancelled ||
         appointment.status == Status.completed ||
         appointment.status == Status.no_show then
        (db, ⟨false, "Cannot cancel appointment with status: " ++ appointment.status.toStr⟩)
      else
        ({ db with
            appointments := db.appointments.map (fun a =>
              if a.id == appointment_id then
                { a with status := .cancelled,
                         cancellation_reason := cancellation_reason,
                         cancelled_at := some now }
              else a) },
         ⟨true, "Appointment cancelled successfully"⟩)

/-- `reschedule_appointment` (appointments.py lines 187-283).  The fetch is
filtered by id and clinic_id; the status guard rejects terminal statuses; the
conflict re-check (lines 233-242) filters by the fetched appointment's
doctor, the new date/time, active statuses, and excludes the appointment's
own id; the update (lines 251-259) is filtered by id only and resets
`reminder_sent`/`reminder_sent_at`. -/
def reschedule_appointment (db : DB) (clinic_id appointment_id new_date new_time now : Nat) :
    DB × OpResult :=
  match db.appointments.find? (fun a => a.id == appointment_id && a.clinic_id == clinic_id) with
  | none => (db, ⟨false, "Appointment not found"⟩)
  | some appointment =>
      if appointment.status == Status.cancelled ||
         appointment.status == Status.completed ||
         appointment.status == Status.no_show then
        (db, ⟨false, "Cannot reschedule appointment with status: " ++ appointment.status.toStr⟩)
      else if db.appointments.any (fun a =>
          a.doctor_id == appointment.doctor_id && a.date == new_date &&
          a.time == new_time &&
          (a.status == Status.scheduled || a.status == Status.confirmed) &&
          !(a.id == appointment_id)) then
        (db, ⟨false, "The new time slot is already booked"⟩)
      else
        ({ db with
            appointments := db.appointments.map (fun a =>
              if a.id == appointment_id then
                { a with date := new_date, time := new_time,
                         rescheduled_at := some now,
                         reminder_sent := false, reminder_sent_at := none }
              else a) },
         ⟨true, "Appointment rescheduled successfully"⟩)

/-- Ordering used by `get_patient_appointments`: ascending (date, time). -/
def upcoming_le (a b : Appointment) : Prop :=
  a.date < b.date ∨ (a.date = b.date ∧ a.time ≤ b.time)

instance : DecidableRel upcoming_le := fun a b => by
  unfold upcoming_le; infer_instance

/-- `get_patient_appointments` (appointments.py lines 286-348): find the
patient of the clinic by phone (`none` = "Patient not found"), then return
that patient's clinic-scoped appointments with active status and
`date ≥ today`, ordered by (date, time) ascending. -/
def get_patient_appointments (db : DB) (clinic_id : Nat) (patient_phone : String)
    (today : Nat) : Option (List Appointment) :=
  match db.patients.find? (fun p => p.clinic_id == clinic_id && p.phone == patient_phone) with
  | none => none
  | some p =>
      some (List.insertionSort upcoming_le (db.appointments.filter (fun a =>
        a.patient_id == p.id && a.clinic_id == clinic_id &&
        today ≤ a.date &&
        (a.status == Status.scheduled || a.status == Status.confirmed))))

/-! ## Availability service (`app/services/availability.py`) -/

/-- A half-open occupied interval in minutes since midnight; `stop` models
the `"end"` dict key of the Python code (`end` is reserved in Lean). -/
structure Interval where
  start : Nat
  stop : Nat
deriving DecidableEq

/-- Result envelope of `check_doctor_availability`.  `slots` holds the slot
start times in minutes since midnight; the code renders each as
`strftime("%H:%M")`, which is injective below 1440 minutes. -/
structure AvailabilityResult where
  available : Bool
  slots : List Nat
  message : String
deriving DecidableEq

/-- The catch-all failure result (availability.py lines 170-176); the code
appends the exception text to the message. -/
def availability_error : AvailabilityResult :=
  ⟨false, [], "Error checking availability"⟩

/-- Weekday name of a day number counted from 1970-01-01 (a Thursday):
`target_date.strftime("%A").lower()`. -/
def day_name_of (d : Nat) : String :=
  [ "thursday", "friday", "saturday", "sunday",
    "monday", "tuesday", "wednesday" ].getD (d % 7) ""

/-- Splitting a character list on `:`, mirroring `str.split(":")` for the
one-character separator (`"".split(":") = [""]`, separators at the ends
produce empty groups). -/
def split_on_colon : List Char → List (List Char)
  | [] => [[]]
  | c :: rest =>
      let r := split_on_colon rest
      if c == ':' then [] :: r
      else
        match r with
        | [] => [[c]]
        | g :: gs => (c :: g) :: gs

/-- Model of Python `int` on a split component: a nonempty run of decimal
digits (Python also tolerates surrounding whitespace and a sign, which no
schedule datum uses). -/
def chars_to_nat : List Char → Option Nat
  | [] => none
  | cs =>
      if cs.all Char.isDigit then
        some (cs.foldl (fun n c => n * 10 + (c.toNat - '0'.toNat)) 0)
      else none

/-- Model of `start_hour, start_min = map(int, s.split(":"))` followed by the
`time(start_hour, start_min)` constructor (availability.py lines 82-85):
the string must split on `:` into exactly two numeric components with
hour < 24 and minute < 60, else a `ValueError` reaches the catch-all
(`none` here). -/
def parse_time_str (s : String) : Option Nat :=
  match (split_on_colon s.data).map chars_to_nat with
  | [some h, some m] => if h < 24 && m < 60 then some (h * 60 + m) else none
  | _ => none

/-- Model of `time.fromisoformat` on the break-time strings (lines 112-118):
accepts `HH:MM` or `HH:MM:SS` with two-digit in-range fields; the minutes
conversion then discards seconds. -/
def parse_iso_time (s : String) : Option Nat :=
  match split_on_colon s.data with
  | [h, m] =>
      match chars_to_nat h, chars_to_nat m with
      | some hn, some mn =>
          if h.length == 2 && m.length == 2 && hn < 24 && mn < 60 then
            some (hn * 60 + mn)
          else none
      | _, _ => none
  | [h, m, sec] =>
      match chars_to_nat h, chars_to_nat m, chars_to_nat sec with
      | some hn, some mn, some sn =>
          if h.length == 2 && m.length == 2 && sec.length == 2 &&
             hn < 24 && mn < 60 && sn < 60 then
            some (hn * 60 + mn)
          else none
      | _, _, _ => none
  | _ => none

/-- The break-time normalization loop (lines 110-118): every `{start, end}`
pair must parse, else the `ValueError` reaches the catch-all. -/
def parse_breaks : List (String × String) → Option (List Interval)
  | [] => some []
  | (s, e) :: rest => do
      let bs ← parse_iso_time s
      let be ← parse_iso_time e
      let tail ← parse_breaks rest
      pure (Interval.mk bs be :: tail)

/-- The blocked-times query (lines 121-129): clinic-scoped, doctor matching
or null, `gte("start_datetime", date)` and
`lte("end_datetime", date + 1 day)`.  In ISO-string order a timestamp with a
time component on day `d+1` compares strictly above the bare date string of
day `d+1`, so the `lte` keeps exactly the rows ending before the next
midnight; on absolute minutes that is `end_datetime < (date + 1) * 1440`. -/
def blocked_rows_for (blocked_times : List BlockedTime)
    (clinic_id doctor_id target_date : Nat) : List BlockedTime :=
  blocked_times.filter (fun b =>
    b.clinic_id == clinic_id &&
    (b.doctor_id == some doctor_id || b.doctor_id == none) &&
    decide (target_date * 1440 ≤ b.start_datetime) &&
    decide (b.end_datetime < (target_date + 1) * 1440))

/-- The blocked-slot normalization (lines 131-140): slicing the time-of-day
substring out of each ISO timestamp is, on absolute minutes, reduction
mod 1440. -/
def blocked_slots_for (blocked_times : List BlockedTime)
    (clinic_id doctor_id target_date : Nat) : List Interval :=
  (blocked_rows_for blocked_times clinic_id doctor_id target_date).map
    (fun b => Interval.mk (b.start_datetime % 1440) (b.end_datetime % 1440))

/-- The per-interval conflict test of the slot loop (line 155):
`not (slot_end <= booked["start"] or slot_start >= booked["end"])`. -/
def slot_conflicts (slot_start slot_end : Nat) (b : Interval) : Bool :=
  decide (¬ (slot_end ≤ b.start ∨ b.stop ≤ slot_start))

/-- The slot-generation `while` loop (lines 142-162), fuel-indexed so the
recursion is structural.  Each iteration advances the cursor by
`slot_duration + buffer_time`; when that stride is positive, the cursor
takes at most `end_minutes + 1` distinct values ≤ `end_minutes`, so the
fuel supplied by `generate_slots` is never exhausted.  A zero stride makes
the Python loop diverge and is outside every claim. -/
def generate_slots_fuel (fuel current end_minutes slot_duration buffer_time : Nat)
    (occupied : List Interval) : List Nat :=
  match fuel with
  | 0 => []
  | fuel' + 1 =>
      if current + slot_duration ≤ end_minutes then
        let rest := generate_slots_fuel fuel' (current + slot_duration + buffer_time)
          end_minutes slot_duration buffer_time occupied
        if occupied.any (slot_conflicts current (current + slot_duration)) then rest
        else current :: rest
      else []

/-- The slot generator: walk from the window start while
`current + slot_duration ≤ end_minutes`, rejecting candidates overlapping
any occupied interval, advancing by `slot_duration + buffer_time` either
way. -/
def generate_slots (start_minutes end_minutes slot_duration buffer_time : Nat)
    (occupied : List Interval) : List Nat :=
  generate_slots_fuel (end_minutes + 1) start_minutes end_minutes
    slot_duration buffer_time occupied

/-- `check_doctor_availability` (availability.py lines 24-176).  The doctor
fetch is id- and clinic-scoped; the appointments fetch (lines 91-98) is
doctor/date/status-scoped; working-hours strings, break strings or
out-of-range values raise and land in the catch-all (`availability_error`).
The inserted booking path always stores `duration_minutes`, so the
`apt.get("duration_minutes", slot_duration)` default never fires and the
column is modelled as always present. -/
def check_doctor_availability (doctors : List Doctor)
    (appointments : List Appointment) (blocked_times : List BlockedTime)
    (doctor_id target_date clinic_id : Nat) : AvailabilityResult :=
  match doctors.find? (fun d => d.id == doctor_id && d.clinic_id == clinic_id) with
  | none => ⟨false, [], "Doctor not found"⟩
  | some doctor =>
      if !(doctor.is_active.getD true) then
        ⟨false, [], "Doctor is not active"⟩
      else
        let day_name := day_name_of target_date
        let day_schedule := (doctor.working_hours.lookup day_name).getD ⟨false, none, none⟩
        if !day_schedule.enabled then
          ⟨false, [], "Doctor not available on " ++ day_name⟩
        else
          match parse_time_str (day_schedule.start.getD "09:00"),
                parse_time_str (day_schedule.stop.getD "17:00"),
                parse_breaks doctor.break_times with
          | some start_minutes, some end_minutes, some break_slots =>
              let slot_duration := doctor.slot_duration.getD 30
              let buffer_time := doctor.buffer_time.getD 5
              let booked_slots := (appointments.filter (fun a =>
                  a.doctor_id == doctor_id && a.date == target_date &&
                  (a.status == Status.scheduled || a.status == Status.confirmed))).map
                (fun a => Interval.mk a.time (a.time + a.duration_minutes))
              let blocked_slots := blocked_slots_for blocked_times clinic_id doctor_id target_date
              let available_slots := generate_slots start_minutes end_minutes
                slot_duration buffer_time (booked_slots ++ break_slots ++ blocked_slots)
              ⟨decide (0 < available_slots.length), available_slots,
               if 0 < available_slots.length then
                 "Found " ++ toString available_slots.length ++ " available slots"
               else "No available slots"⟩
          | _, _, _ => availability_error

/-! ## Concrete fixtures used by witnesses and counterexamples -/

/-- A doctor working Thursdays 09:00-17:00, slot 30, buffer 5, no breaks. -/
def doctor_fix : Doctor :=
  { id := 7, clinic_id := 1, is_active := some true,
    working_hours := [("thursday", ⟨true, some "09:00", some "17:00"⟩)],
    slot_duration := some 30, buffer_time := some 5, break_times := [] }

/-- The same doctor with zero buffer. -/
def doctor_buffer0 : Doctor := { doctor_fix with buffer_time := some 0 }

/-- The same doctor with a malformed working-hours start string. -/
def doctor_malformed : Doctor :=
  { doctor_fix with
    working_hours := [("thursday", ⟨true, some "9am", some "17:00"⟩)] }

/-- The same doctor marked inactive. -/
def doctor_inactive : Doctor := { doctor_fix with is_active := some false }

/-- A doctor working Fridays 00:00-02:00, slot 30, buffer 0. -/
def doctor_friday : Doctor :=
  { doctor_fix with
    working_hours := [("friday", ⟨true, some "00:00", some "02:00"⟩)],
    buffer_time := some 0 }

/-- A scheduled appointment for doctor 7 on day 0 (a Thursday) at 10:00 for
30 minutes, owned by clinic 1. -/
def appt_at_600 : Appointment :=
  { apptDefault with
    id := 1, clinic_id := 1, doctor_id := 7, patient_id := 50,
    date := 0, time := 600, duration_minutes := 30, status := .scheduled }

/-- Booking request for clinic 1, doctor 7, day 0, 10:00. -/
def create_alice : AppointmentCreate :=
  { clinic_id := 1, doctor_id := 7, appointment_type_id := none,
    date := 0, time := 600, duration_minutes := 30, reason := none,
    patient_name := "Alice", patient_phone := "+212600000001",
    preferred_language := "en", prefers_whatsapp := true }

/-- A second booking request for the identical (doctor, date, time). -/
def create_bob : AppointmentCreate :=
  { create_alice with patient_name := "Bob", patient_phone := "+212600000002" }

/-! ## Helper lemmas -/

/-- The patient upsert reads and writes only the `patients` table. -/
theorem create_or_get_appointments_eq (db : DB) (clinic_id : Nat)
    (phone name preferred_language : String) (prefers_whatsapp : Bool) :
    (create_or_get_by_phone db clinic_id phone name preferred_language
      prefers_whatsapp).1.appointments = db.appointments := by
  unfold create_or_get_by_phone
  cases db.patients.find? (fun p => p.clinic_id == clinic_id && p.phone == phone) <;> rfl

/-- Every slot start emitted by the generation loop passes the conflict test
against every occupied interval. -/
theorem generate_slots_fuel_no_conflict (fuel current end_minutes slot_duration buffer_time m : Nat)
    (occupied : List Interval)
    (hm : m ∈ generate_slots_fuel fuel current end_minutes slot_duration buffer_time occupied) :
    ∀ iv ∈ occupied, slot_conflicts m (m + slot_duration) iv = false := by
  induction fuel generalizing current with
  | zero => simp [generate_slots_fuel] at hm
  | succ fuel ih =>
      rw [generate_slots_fuel] at hm
      by_cases h1 : current + slot_duration ≤ end_minutes
      · simp only [if_pos h1] at hm
        cases hany : occupied.any (slot_conflicts current (current + slot_duration)) with
        | true => rw [hany, if_pos rfl] at hm; exact ih _ hm
        | false =>
            rw [hany] at hm
            simp only [Bool.false_eq_true, if_false, List.mem_cons] at hm
            rcases hm with rfl | hm
            · intro iv hiv
              exact Bool.eq_false_iff.mpr (List.any_eq_false.mp hany iv hiv)
            · exact ih _ hm
      · simp only [if_neg h1] at hm
        simp at hm

/-- Filtering after a row-update map equals filtering the original list when
the update preserves the filter predicate and fixes every row the filter
keeps. -/
theorem filter_map_congr {α : Type} (f : α → α) (q : α → Bool) (l : List α)
    (h : ∀ b ∈ l, q (f b) = q b ∧ (q b = true → f b = b)) :
    (l.map f).filter q = l.filter q := by
  induction l with
  | nil => rfl
  | cons b t ih =>
      have hb := h b (List.mem_cons_self b t)
      have ht : ∀ x ∈ t, q (f x) = q x ∧ (q x = true → f x = x) := fun x hx =>
        h x (List.mem_cons_of_mem b hx)
      cases hq : q b with
      | true =>
          simp only [List.map_cons, List.filter_cons, hb.1, hq, hb.2 hq, if_pos rfl]
          simp [ih ht]
      | false =>
          simp only [List.map_cons, List.filter_cons, hb.1, hq]
          simp [ih ht]

/-! ## Claim theorems -/

/-- Claim C5: for window [540,1020) with slot_duration 30, buffer 5 and no
occupied intervals, the slot generator returns exactly the starts
540, 575, 610, ... with stride 35, every start is at most 990, the output is
sorted strictly ascending, and the total count is 13. -/
theorem generate_slots_stride :
    generate_slots 540 1020 30 5 [] =
      [540, 575, 610, 645, 680, 715, 750, 785, 820, 855, 890, 925, 960] ∧
    (generate_slots 540 1020 30 5 []).length = 13 ∧
    List.Chain' (· < ·) (generate_slots 540 1020 30 5 []) ∧
    ∀ s ∈ generate_slots 540 1020 30 5 [], s ≤ 990 := by
  have h : generate_slots 540 1020 30 5 [] =
      [540, 575, 610, 645, 680, 715, 750, 785, 820, 855, 890, 925, 960] := by decide
  refine ⟨h, by rw [h]; rfl, ?_, ?_⟩
  · rw [h]
    norm_num [List.chain'_cons]
  · intro s hs
    rw [h] at hs
    fin_cases hs <;> norm_num

/-- Claim C10: for every doctor record with `is_active` set to false, the
availability check returns available=false, empty slots and the message
"Doctor is not active", for every appointments list and blocked-times list
(so neither the schedule, the appointments nor the blocked times are
consulted). -/
theorem inactive_doctor_no_slots (doctors : List Doctor)
    (appointments : List Appointment) (blocked_times : List BlockedTime)
    (doctor_id target_date clinic_id : Nat) (doc : Doctor)
    (hfind : doctors.find? (fun d => d.id == doctor_id && d.clinic_id == clinic_id) = some doc)
    (hinactive : doc.is_active = some false) :
    check_doctor_availability doctors appointments blocked_times doctor_id target_date clinic_id =
      ⟨false, [], "Doctor is not active"⟩ := by
  unfold check_doctor_availability
  rw [hfind]
  simp [hinactive]

/-- Witness for the C10 theorem at a concrete inactive doctor. -/
theorem inactive_doctor_no_slots_witness :
    check_doctor_availability [doctor_inactive] [appt_at_600] [] 7 0 1 =
      ⟨false, [], "Doctor is not active"⟩ :=
  inactive_doctor_no_slots [doctor_inactive] [appt_at_600] [] 7 0 1
    doctor_inactive (by decide) (by decide)

/-- Claim C9: when the working-hours start or end string of the queried
(enabled) weekday is malformed, the availability check does not substitute
the default schedule; the failure reaches the catch-all handler and is
surfaced to the caller as available=false with empty slots, without
crashing the request. -/
theorem malformed_working_hours_no_slots (doctors : List Doctor)
    (appointments : List Appointment) (blocked_times : List BlockedTime)
    (doctor_id target_date clinic_id : Nat) (doc : Doctor)
    (hfind : doctors.find? (fun d => d.id == doctor_id && d.clinic_id == clinic_id) = some doc)
    (hactive : doc.is_active.getD true = true)
    (henabled : (((doc.working_hours.lookup (day_name_of target_date)).getD
      ⟨false, none, none⟩).enabled) = true)
    (hbad : parse_time_str ((((doc.working_hours.lookup (day_name_of target_date)).getD
              ⟨false, none, none⟩).start).getD "09:00") = none ∨
            parse_time_str ((((doc.working_hours.lookup (day_name_of target_date)).getD
              ⟨false, none, none⟩).stop).getD "17:00") = none) :
    check_doctor_availability doctors appointments blocked_times doctor_id target_date clinic_id =
      availability_error ∧
    availability_error.available = false ∧ availability_error.slots = [] := by
  refine ⟨?_, rfl, rfl⟩
  unfold check_doctor_availability
  rw [hfind]
  dsimp only
  rw [hactive, henabled]
  simp only [Bool.not_true, Bool.false_eq_true, if_false]
  rcases hbad with hb | hb
  · rw [hb]
  · rw [hb]
    cases parse_time_str ((((doc.working_hours.lookup (day_name_of target_date)).getD
      ⟨false, none, none⟩).start).getD "09:00") <;> rfl

/-- Witness for the C9 theorem at a doctor whose Thursday start string is
"9am". -/
theorem malformed_working_hours_no_slots_witness :
    check_doctor_availability [doctor_malformed] [appt_at_600] [] 7 0 1 =
      availability_error ∧
    availability_error.available = false ∧ availability_error.slots = [] :=
  malformed_working_hours_no_slots [doctor_malformed] [appt_at_600] [] 7 0 1
    doctor_malformed (by decide) (by decide) (by decide) (Or.inl (by decide))

/-- A cancelled copy of the fixture appointment. -/
def appt_cancelled : Appointment := { appt_at_600 with status := .cancelled }

/-- Claim C3: cancel succeeds only when the appointment found by the
clinic-scoped fetch has status in {scheduled, confirmed}; for any terminal
status (cancelled, completed, no_show) it fails with the invalid-transition
message and mutates nothing — cancelling an already-cancelled appointment
never changes the record; on success it sets status=cancelled and records
the cancellation reason and timestamp. -/
theorem cancel_status_guard (db : DB) (cid aid : Nat) (reason : Option String) (now : Nat)
    (a : Appointment)
    (hfind : db.appointments.find? (fun x => x.id == aid && x.clinic_id == cid) = some a) :
    ((a.status = Status.cancelled ∨ a.status = Status.completed ∨ a.status = Status.no_show) →
      cancel_appointment db cid aid reason now =
        (db, ⟨false, "Cannot cancel appointment with status: " ++ a.status.toStr⟩)) ∧
    ((a.status = Status.scheduled ∨ a.status = Status.confirmed) →
      (cancel_appointment db cid aid reason now).2 = ⟨true, "Appointment cancelled successfully"⟩ ∧
      (cancel_appointment db cid aid reason now).1.appointments =
        db.appointments.map (fun x =>
          if x.id == aid then
            { x with status := .cancelled, cancellation_reason := reason, cancelled_at := some now }
          else x) ∧
      (cancel_appointment db cid aid reason now).1.patients = db.patients) := by
  unfold cancel_appointment
  rw [hfind]
  dsimp only
  constructor
  · rintro (h | h | h) <;> rw [h] <;> rfl
  · rintro (h | h) <;> rw [h] <;> exact ⟨rfl, rfl, rfl⟩

/-- Witness for the C3 theorem: cancelling an already-cancelled appointment
fails and leaves the store unchanged. -/
theorem cancel_status_guard_witness :
    cancel_appointment ⟨[appt_cancelled], [], 2⟩ 1 1 (some "patient sick") 99 =
      (⟨[appt_cancelled], [], 2⟩,
       ⟨false, "Cannot cancel appointment with status: " ++ appt_cancelled.status.toStr⟩) :=
  (cancel_status_guard ⟨[appt_cancelled], [], 2⟩ 1 1 (some "patient sick") 99
    appt_cancelled (by decide)).1 (Or.inl (by decide))

/-- Claim C4: after a successful reschedule of an appointment with status in
{scheduled, confirmed}, the appointment's date and time equal the new
values, reminder_sent is false regardless of its prior value,
confirmation_sent and status are unchanged (for every row of the table),
and the conflict re-check excludes the appointment's own id: the
no-conflict hypothesis below exempts rows whose id is the appointment's
own, so rescheduling onto a slot occupied only by itself succeeds. -/
theorem reschedule_frame (db : DB) (cid aid nd nt now : Nat) (a : Appointment)
    (hfind : db.appointments.find? (fun x => x.id == aid && x.clinic_id == cid) = some a)
    (hactive : a.status = Status.scheduled ∨ a.status = Status.confirmed)
    (hnoconf : ∀ b ∈ db.appointments, b.doctor_id = a.doctor_id → b.date = nd → b.time = nt →
      (b.status = Status.scheduled ∨ b.status = Status.confirmed) → b.id = aid) :
    (reschedule_appointment db cid aid nd nt now).2 =
      ⟨true, "Appointment rescheduled successfully"⟩ ∧
    (reschedule_appointment db cid aid nd nt now).1.appointments =
      db.appointments.map (fun b =>
        if b.id == aid then
          { b with date := nd, time := nt, rescheduled_at := some now,
                   reminder_sent := false, reminder_sent_at := none }
        else b) ∧
    ((reschedule_appointment db cid aid nd nt now).1.appointments.map
        (fun b => (b.status, b.confirmation_sent)) =
      db.appointments.map (fun b => (b.status, b.confirmation_sent))) ∧
    ∀ b ∈ (reschedule_appointment db cid aid nd nt now).1.appointments,
      b.id = aid → b.date = nd ∧ b.time = nt ∧ b.reminder_sent = false := by
  have hany : db.appointments.any (fun b =>
      b.doctor_id == a.doctor_id && b.date == nd && b.time == nt &&
      (b.status == Status.scheduled || b.status == Status.confirmed) &&
      !(b.id == aid)) = false := by
    apply List.any_eq_false.mpr
    intro b hb
    intro hcontra
    simp only [Bool.and_eq_true, beq_iff_eq, Bool.or_eq_true, Bool.not_eq_true'] at hcontra
    obtain ⟨⟨⟨⟨hdoc, hdate⟩, htime⟩, hst⟩, hid⟩ := hcontra
    have := hnoconf b hb hdoc hdate htime hst
    rw [this] at hid
    simp at hid
  have hres : reschedule_appointment db cid aid nd nt now =
      ({ db with
          appointments := db.appointments.map (fun b =>
            if b.id == aid then
              { b with date := nd, time := nt, rescheduled_at := some now,
                       reminder_sent := false, reminder_sent_at := none }
            else b) },
       ⟨true, "Appointment rescheduled successfully"⟩) := by
    unfold reschedule_appointment
    rw [hfind]
    dsimp only
    rcases hactive with h | h <;> rw [h] <;> rw [hany] <;> rfl
  refine ⟨by rw [hres], by rw [hres], ?_, ?_⟩
  · rw [hres]
    dsimp only
    rw [List.map_map]
    apply List.map_congr_left
    intro b hb
    by_cases hid : b.id = aid <;> simp [hid]
  · rw [hres]
    dsimp only
    intro b hb hid
    obtain ⟨b0, hb0, rfl⟩ := List.mem_map.mp hb
    by_cases h0 : (b0.id == aid) = true
    · simp [h0]
    · rw [if_neg h0] at hid ⊢
      exact absurd (beq_iff_eq.mpr hid) h0

/-- Witness for the C4 theorem: rescheduling the fixture appointment onto
its own (doctor, date, time) succeeds, which exercises the own-id exclusion
of the conflict re-check. -/
theorem reschedule_frame_witness :
    (reschedule_appointment ⟨[appt_at_600], [], 2⟩ 1 1 0 600 99).2 =
      ⟨true, "Appointment rescheduled successfully"⟩ :=
  (reschedule_frame ⟨[appt_at_600], [], 2⟩ 1 1 0 600 99 appt_at_600 (by decide)
    (Or.inl (by decide)) (by intro b hb _ _ _ _; fin_cases hb; decide)).1

/-- Claim C1 (the code violates it): interleaving two Book calls for the
identical (doctor 7, day 0, minute 600) tuple as upsert-1, upsert-2,
check-1, check-2, insert-1, insert-2 — each call running its own steps in
program order — makes both point checks pass, both inserts happen, and two
appointments with status in {scheduled, confirmed} exist for the tuple;
sequentially the second call does fail, so the guard only works without
concurrency. -/
theorem book_check_then_insert_races :
    (let db0 : DB := ⟨[], [], 1⟩
     let u1 := book_upsert db0 create_alice
     let u2 := book_upsert u1.1 create_bob
     slot_taken u2.1.appointments create_alice.doctor_id create_alice.date create_alice.time
       = false ∧
     slot_taken u2.1.appointments create_bob.doctor_id create_bob.date create_bob.time
       = false ∧
     ((book_insert_step (book_insert_step u2.1 create_alice u1.2).1 create_bob u2.2).1.appointments.filter
        (fun a => a.doctor_id == 7 && a.date == 0 && a.time == 600 &&
          (a.status == Status.scheduled || a.status == Status.confirmed))).length = 2 ∧
     (book_appointment (book_appointment db0 create_alice).1 create_bob).2.success = false) := by
  decide

/-- Counterexample to claim C2 as stated: booking an already-taken slot
fails with the slot-conflict message, yet the store did change — the
patient upsert ran before the point check and created a patient row. -/
theorem book_conflict_still_creates_patient :
    (book_appointment ⟨[appt_at_600], [], 2⟩ create_alice).2.success = false ∧
    (book_appointment ⟨[appt_at_600], [], 2⟩ create_alice).2.message =
      "This time slot is already booked" ∧
    (book_appointment ⟨[appt_at_600], [], 2⟩ create_alice).1.patients ≠ ([] : List Patient) ∧
    (book_appointment ⟨[appt_at_600], [], 2⟩ create_alice).1.patients.length = 1 := by
  decide

/-- Claim C2 as amended: Book first upserts the patient by (clinic, phone),
then performs the point check for an existing appointment at
(doctor, date, time) with status in {scheduled, confirmed}; if one exists
it fails with the slot-conflict message and inserts no appointment row;
only if none exists does it insert the appointment row with
status=scheduled. -/
theorem book_upserts_patient_before_check (db : DB) (d : AppointmentCreate) :
    (book_upsert db d).1.appointments = db.appointments ∧
    (book_appointment db d).1.patients = (book_upsert db d).1.patients ∧
    (slot_taken db.appointments d.doctor_id d.date d.time = true →
      (book_appointment db d).2.success = false ∧
      (book_appointment db d).2.message = "This time slot is already booked" ∧
      (book_appointment db d).1.appointments = db.appointments) ∧
    (slot_taken db.appointments d.doctor_id d.date d.time = false →
      (book_appointment db d).2.success = true ∧
      (book_appointment db d).1.appointments.map (fun a => a.status) =
        (db.appointments.map fun a => a.status) ++ [Status.scheduled]) := by
  have happ : (book_upsert db d).1.appointments = db.appointments :=
    create_or_get_appointments_eq db d.clinic_id d.patient_phone d.patient_name
      d.preferred_language d.prefers_whatsapp
  cases h : slot_taken db.appointments d.doctor_id d.date d.time with
  | true =>
      have hb : book_appointment db d =
          ((book_upsert db d).1, ⟨false, none, "This time slot is already booked"⟩) := by
        unfold book_appointment
        dsimp only
        rw [happ, h]
        simp
      refine ⟨happ, by rw [hb], fun _ => ⟨by rw [hb], by rw [hb], by rw [hb]; exact happ⟩,
        fun hc => Bool.noConfusion hc⟩
  | false =>
      have hb : book_appointment db d =
          ((book_insert_step (book_upsert db d).1 d (book_upsert db d).2).1,
           ⟨true, some (book_insert_step (book_upsert db d).1 d (book_upsert db d).2).2,
            "Appointment booked successfully"⟩) := by
        unfold book_appointment
        dsimp only
        rw [happ, h]
        simp
      refine ⟨happ, by rw [hb]; rfl,
        fun hc => Bool.noConfusion hc,
        fun _ => ⟨by rw [hb], ?_⟩⟩
      rw [hb]
      dsimp only [book_insert_step]
      rw [List.map_append, happ]
      rfl

/-- Witness for the amended C2 theorem at a taken slot: booking fails but
the final patients table is the post-upsert one. -/
theorem book_upserts_patient_before_check_witness :
    (book_appointment ⟨[appt_at_600], [], 2⟩ create_alice).2.success = false ∧
    (book_appointment ⟨[appt_at_600], [], 2⟩ create_alice).1.patients =
      (book_upsert ⟨[appt_at_600], [], 2⟩ create_alice).1.patients :=
  ⟨((book_upserts_patient_before_check ⟨[appt_at_600], [], 2⟩ create_alice).2.2.1
      (by decide)).1,
   (book_upserts_patient_before_check ⟨[appt_at_600], [], 2⟩ create_alice).2.1⟩

/-- Counterexample to claim C7 as stated: every appointment in the store
belongs to clinic 2, yet a Book call for clinic 1 is rejected with the
slot-conflict message because the double-booking check filters by doctor
only — the operation read, and its outcome was decided by, another
clinic's appointment.  Without that row the same call succeeds. -/
theorem book_conflict_check_reads_other_clinic :
    (∀ a ∈ [{ appt_at_600 with clinic_id := 2 }], a.clinic_id ≠ create_alice.clinic_id) ∧
    (book_appointment ⟨[{ appt_at_600 with clinic_id := 2 }], [], 2⟩ create_alice).2.success
      = false ∧
    (book_appointment ⟨[{ appt_at_600 with clinic_id := 2 }], [], 2⟩ create_alice).2.message
      = "This time slot is already booked" ∧
    (book_appointment ⟨[], [], 2⟩ create_alice).2.success = true := by
  refine ⟨?_, by decide, by decide, by decide⟩
  intro a ha
  fin_cases ha
  decide

/-- Claim C7 as amended: the entity fetches of Cancel, Reschedule and
ListUpcoming are clinic-scoped, so (with unique appointment ids) Cancel and
Reschedule leave every other clinic's appointment rows exactly unchanged
and ListUpcoming returns only the caller clinic's rows; the slot-conflict
checks of Book and Reschedule, however, are scoped by doctor only (see the
counterexample). -/
theorem clinic_scoped_mutations (db : DB) (cid aid nd nt now today : Nat)
    (reason : Option String) (phone : String)
    (hu : ∀ x ∈ db.appointments, ∀ y ∈ db.appointments, x.id = y.id → x = y) :
    (cancel_appointment db cid aid reason now).1.appointments.filter
        (fun b => !(b.clinic_id == cid)) =
      db.appointments.filter (fun b => !(b.clinic_id == cid)) ∧
    (reschedule_appointment db cid aid nd nt now).1.appointments.filter
        (fun b => !(b.clinic_id == cid)) =
      db.appointments.filter (fun b => !(b.clinic_id == cid)) ∧
    (∀ l, get_patient_appointments db cid phone today = some l →
      ∀ b ∈ l, b.clinic_id = cid) := by
  refine ⟨?_, ?_, ?_⟩
  · cases hf : db.appointments.find? (fun a => a.id == aid && a.clinic_id == cid) with
    | none => unfold cancel_appointment; rw [hf]
    | some a =>
        have ha : a ∈ db.appointments := List.mem_of_find?_eq_some hf
        have hpa := List.find?_some hf
        simp only [Bool.and_eq_true, beq_iff_eq] at hpa
        unfold cancel_appointment
        rw [hf]
        dsimp only
        by_cases hterm : (a.status == Status.cancelled || a.status == Status.completed ||
            a.status == Status.no_show) = true
        · rw [if_pos hterm]
        · rw [if_neg hterm]
          dsimp only
          apply filter_map_congr
          intro b hb
          constructor
          · by_cases hbid : (b.id == aid) = true <;> simp [hbid]
          · intro hq
            have hbid : (b.id == aid) = false := by
              by_contra hcon
              rw [Bool.not_eq_false, beq_iff_eq] at hcon
              have hba : b = a := hu b hb a ha (hcon.trans hpa.1.symm)
              rw [hba] at hq
              simp [hpa.2] at hq
            rw [if_neg (by rw [hbid]; exact Bool.noConfusion)]
  · cases hf : db.appointments.find? (fun a => a.id == aid && a.clinic_id == cid) with
    | none => unfold reschedule_appointment; rw [hf]
    | some a =>
        have ha : a ∈ db.appointments := List.mem_of_find?_eq_some hf
        have hpa := List.find?_some hf
        simp only [Bool.and_eq_true, beq_iff_eq] at hpa
        unfold reschedule_appointment
        rw [hf]
        dsimp only
        by_cases hterm : (a.status == Status.cancelled || a.status == Status.completed ||
            a.status == Status.no_show) = true
        · rw [if_pos hterm]
        · rw [if_neg hterm]
          by_cases hany : (db.appointments.any (fun b =>
              b.doctor_id == a.doctor_id && b.date == nd && b.time == nt &&
              (b.status == Status.scheduled || b.status == Status.confirmed) &&
              !(b.id == aid))) = true
          · rw [if_pos hany]
          · rw [if_neg hany]
            dsimp only
            apply filter_map_congr
            intro b hb
            constructor
            · by_cases hbid : (b.id == aid) = true <;> simp [hbid]
            · intro hq
              have hbid : (b.id == aid) = false := by
                by_contra hcon
                rw [Bool.not_eq_false, beq_iff_eq] at hcon
                have hba : b = a := hu b hb a ha (hcon.trans hpa.1.symm)
                rw [hba] at hq
                simp [hpa.2] at hq
              rw [if_neg (by rw [hbid]; exact Bool.noConfusion)]
  · intro l hl b hb
    unfold get_patient_appointments at hl
    cases hp : db.patients.find? (fun p => p.clinic_id == cid && p.phone == phone) with
    | none => rw [hp] at hl; exact Option.noConfusion hl
    | some p =>
        rw [hp] at hl
        dsimp only at hl
        have hl2 : List.insertionSort upcoming_le (db.appointments.filter (fun a =>
            a.patient_id == p.id && a.clinic_id == cid && today ≤ a.date &&
            (a.status == Status.scheduled || a.status == Status.confirmed))) = l :=
          Option.some.inj hl
        rw [← hl2] at hb
        have hb2 := (List.perm_insertionSort upcoming_le _).mem_iff.mp hb
        have := (List.mem_filter.mp hb2).2
        simp only [Bool.and_eq_true, beq_iff_eq] at this
        exact this.1.1.2

/-- Witness for the amended C7 theorem: cancelling in clinic 1 leaves the
(sole, clinic-1) store's rows of other clinics unchanged. -/
theorem clinic_scoped_mutations_witness :
    (cancel_appointment ⟨[appt_at_600], [], 2⟩ 1 1 none 99).1.appointments.filter
        (fun b => !(b.clinic_id == 1)) =
      [appt_at_600].filter (fun b => !(b.clinic_id == 1)) :=
  (clinic_scoped_mutations ⟨[appt_at_600], [], 2⟩ 1 1 0 600 99 0 none "+212600000001"
    (by intro x hx y hy _; fin_cases hx; fin_cases hy; rfl)).1

/-- Modelled from the spec's words, for comparison with the implemented
query filter: a blocked row is relevant to a date when its absolute
[start, end) range intersects the day window [date 00:00, date+1 00:00). -/
def intersects_day_window (b : BlockedTime) (target_date : Nat) : Prop :=
  b.start_datetime < (target_date + 1) * 1440 ∧ target_date * 1440 < b.end_datetime

/-- Counterexample to claim C8 as stated: a clinic-wide blocked row from
day 0 23:00 to day 1 01:00 intersects day 1's window, but the query's
`gte(start_datetime, date)` containment filter drops it, so it contributes
no occupied interval — and the 00:00 and 00:30 slots of a doctor working
day 1 00:00-02:00 are still offered. -/
theorem blocked_row_intersecting_midnight_ignored :
    intersects_day_window ⟨1, none, 1380, 1500⟩ 1 ∧
    blocked_rows_for [⟨1, none, 1380, 1500⟩] 1 7 1 = [] ∧
    blocked_slots_for [⟨1, none, 1380, 1500⟩] 1 7 1 = [] ∧
    (check_doctor_availability [doctor_friday] [] [⟨1, none, 1380, 1500⟩] 7 1 1).slots =
      [0, 30, 60, 90] := by
  exact ⟨⟨by decide, by decide⟩, by decide, by decide, by decide⟩

/-- Claim C8 as amended: the occupancy computation includes every
blocked-time row of the clinic (doctor null or equal to the queried doctor)
whose absolute range is contained in the day window — start at or after the
date's midnight and end before the next midnight — each contributing its
time-of-day minute interval. -/
theorem contained_blocked_rows_contribute (blocked_times : List BlockedTime)
    (clinic_id doctor_id target_date : Nat) (b : BlockedTime)
    (hmem : b ∈ blocked_times) (hclinic : b.clinic_id = clinic_id)
    (hdoc : b.doctor_id = none ∨ b.doctor_id = some doctor_id)
    (hstart : target_date * 1440 ≤ b.start_datetime)
    (hend : b.end_datetime < (target_date + 1) * 1440) :
    Interval.mk (b.start_datetime % 1440) (b.end_datetime % 1440) ∈
      blocked_slots_for blocked_times clinic_id doctor_id target_date := by
  apply List.mem_map.mpr
  refine ⟨b, ?_, rfl⟩
  apply List.mem_filter.mpr
  refine ⟨hmem, ?_⟩
  rcases hdoc with h | h <;> simp [hclinic, hstart, hend, h]

/-- Witness for the amended C8 theorem: a clinic-wide block on day 1 from
10:00 to 11:00 contributes the interval [600, 660). -/
theorem contained_blocked_rows_contribute_witness :
    Interval.mk 600 660 ∈ blocked_slots_for [⟨1, none, 2040, 2100⟩] 1 7 1 :=
  contained_blocked_rows_contribute [⟨1, none, 2040, 2100⟩] 1 7 1 ⟨1, none, 2040, 2100⟩
    (by decide) rfl (Or.inl rfl) (by decide) (by decide)

/-- Counterexample to claim C6 as stated: with the fixture doctor (default
stride 30 + 5) and an active appointment at 10:00 for 30 minutes, the
availability result is nonempty but the 10:30 slot is absent — the cursor
stride from 09:00 never proposes 10:30 — so "the slot [10:30, 11:00) is
present for every checkAvailability call" fails. -/
theorem boundary_slot_missing_with_default_buffer :
    appt_at_600.doctor_id = 7 ∧ appt_at_600.date = 0 ∧ appt_at_600.time = 600 ∧
    appt_at_600.duration_minutes = 30 ∧ appt_at_600.status = Status.scheduled ∧
    630 ∉ (check_doctor_availability [doctor_fix] [appt_at_600] [] 7 0 1).slots ∧
    (check_doctor_availability [doctor_fix] [appt_at_600] [] 7 0 1).slots ≠ [] := by
  decide

/-- Claim C6 as amended: if an active appointment occupies [600, 630) (10:00
for 30 minutes) for the queried doctor and date, then no checkAvailability
call ever offers the 10:00 slot (any positive slot duration makes the
candidate [600, 600+d) overlap [600, 630) under the strict half-open test);
and 10:30 is offered when the stride proposes it — concretely with buffer 0
the result contains 630 and not 600, since a slot exactly touching the
occupied boundary is accepted. -/
theorem occupied_start_never_offered (doctors : List Doctor)
    (appointments : List Appointment) (blocked_times : List BlockedTime)
    (doctor_id target_date clinic_id : Nat) (a : Appointment)
    (ha : a ∈ appointments) (had : a.doctor_id = doctor_id)
    (hadate : a.date = target_date) (hat : a.time = 600) (hadur : a.duration_minutes = 30)
    (has : a.status = Status.scheduled ∨ a.status = Status.confirmed)
    (hsd : ∀ doc ∈ doctors, 0 < doc.slot_duration.getD 30) :
    600 ∉ (check_doctor_availability doctors appointments blocked_times
      doctor_id target_date clinic_id).slots ∧
    (630 ∈ (check_doctor_availability [doctor_buffer0] [appt_at_600] [] 7 0 1).slots ∧
     600 ∉ (check_doctor_availability [doctor_buffer0] [appt_at_600] [] 7 0 1).slots) := by
  refine ⟨?_, by decide, by decide⟩
  unfold check_doctor_availability
  cases hf : doctors.find? (fun d => d.id == doctor_id && d.clinic_id == clinic_id) with
  | none => simp
  | some doc =>
      have hdocmem : doc ∈ doctors := List.mem_of_find?_eq_some hf
      have hs : 0 < doc.slot_duration.getD 30 := hsd doc hdocmem
      dsimp only
      by_cases hact : (!(doc.is_active.getD true)) = true
      · rw [if_pos hact]; simp
      · rw [if_neg hact]
        by_cases hen : (!(((doc.working_hours.lookup (day_name_of target_date)).getD
            ⟨false, none, none⟩).enabled)) = true
        · rw [if_pos hen]; simp
        · rw [if_neg hen]
          split
          · intro hmem
            dsimp only at hmem
            unfold generate_slots at hmem
            have hbooked : Interval.mk 600 630 ∈ (appointments.filter (fun x =>
                x.doctor_id == doctor_id && x.date == target_date &&
                (x.status == Status.scheduled || x.status == Status.confirmed))).map
                (fun x => Interval.mk x.time (x.time + x.duration_minutes)) := by
              apply List.mem_map.mpr
              refine ⟨a, List.mem_filter.mpr ⟨ha, ?_⟩, by rw [hat, hadur]⟩
              rcases has with h | h <;> simp [had, hadate, h]
            have hconf := generate_slots_fuel_no_conflict _ _ _ _ _ _ _ hmem
              (Interval.mk 600 630)
              (List.mem_append_left _ (List.mem_append_left _ hbooked))
            simp only [slot_conflicts, Interval.mk.injEq, decide_eq_false_iff_not,
              Decidable.not_not] at hconf
            rcases hconf with h | h <;> omega
          · simp [availability_error]

/-- Witness for the amended C6 theorem with the fixture doctor and the
10:00 appointment. -/
theorem occupied_start_never_offered_witness :
    600 ∉ (check_doctor_availability [doctor_fix] [appt_at_600] [] 7 0 1).slots :=
  (occupied_start_never_offered [doctor_fix] [appt_at_600] [] 7 0 1 appt_at_600
    (by decide) rfl rfl rfl rfl (Or.inl rfl)
    (by intro doc hd; fin_cases hd; decide)).1

end CuraVoice
